import Mathlib

/-!
Shallow embedding of the gameplay simulation core of the Space Invaders
client (entity model, collision predicate, enemy wave movement, destructible
walls, player damage state machine, power-up spawning, level loading
fallback, and the lives bookkeeping of the collision/tick pipeline).

JavaScript numbers are embedded as rationals (ℚ): every constant appearing
in the embedded code paths is exactly representable, all comparisons are
order comparisons, and the one square root in the source (the wall impact
distance `Math.sqrt(dx*dx+dy*dy) < r`) is embedded by the equivalent
squared comparison `dx*dx+dy*dy < r*r`, valid because both sides of the
source comparison are nonnegative and squaring is monotone there.
-/

namespace SpaceInvaders

/-- Axis-aligned bounding box, as produced by `Entity.getBounds()`. -/
structure Rect where
  x : ℚ
  y : ℚ
  width : ℚ
  height : ℚ
deriving DecidableEq, Repr

/-- Embeds `Utils.checkCollision(rect1, rect2)` from client/js/utils.js:
strict axis-aligned bounding box intersection. -/
def checkCollision (rect1 rect2 : Rect) : Bool :=
  decide (rect1.x < rect2.x + rect2.width) &&
  decide (rect1.x + rect1.width > rect2.x) &&
  decide (rect1.y < rect2.y + rect2.height) &&
  decide (rect1.y + rect1.height > rect2.y)

/-- The enemy kinds of `Enemy.setTypeProperties`. -/
inductive EnemyType
  | basic
  | fast
  | aggressive
  | boss
deriving DecidableEq, Repr

/-- Enemy state: the fields of `class Enemy` read or written by the wave
movement, level creation and scoring paths. -/
structure Enemy where
  x : ℚ
  y : ℚ
  width : ℚ
  height : ℚ
  speed : ℚ
  dropSpeed : ℚ
  type : EnemyType
  points : ℤ
  shootFrequency : ℚ
deriving DecidableEq, Repr

/-- Embeds the `Enemy` constructor plus `setTypeProperties()`: base size
30×25, speed 1, dropSpeed 20, then per-type points / shoot frequency /
speed and size adjustments. -/
def mkEnemy (x y : ℚ) (t : EnemyType) : Enemy :=
  let base : Enemy :=
    { x := x, y := y, width := 30, height := 25, speed := 1, dropSpeed := 20,
      type := t, points := 10, shootFrequency := 3/1000 }
  match t with
  | .basic => { base with points := 10, shootFrequency := 1/20000 }
  | .fast => { base with points := 20, shootFrequency := 1/10000, speed := 1 * (12/10) }
  | .aggressive => { base with points := 30, shootFrequency := 3/20000, speed := 1 * (11/10) }
  | .boss => { base with points := 50, shootFrequency := 3/10000, width := 40, height := 35 }

/-- Embeds `Enemy.moveDown()`: `this.y += this.dropSpeed`. -/
def moveDown (e : Enemy) : Enemy :=
  { e with y := e.y + e.dropSpeed }

/-- The swarm state shared across all enemies: the enemy list together with
the single shared `enemyDirection`. -/
structure Swarm where
  enemies : List Enemy
  direction : ℤ
deriving DecidableEq, Repr

/-- Embeds the per-enemy edge test inside `moveEnemies`:
`(enemy.x <= 0 && this.enemyDirection === -1) ||
 (enemy.x + enemy.width >= this.canvas.width && this.enemyDirection === 1)`. -/
def hitsEdge (canvasWidth : ℚ) (direction : ℤ) (e : Enemy) : Bool :=
  (decide (e.x ≤ 0) && decide (direction = -1)) ||
  (decide (e.x + e.width ≥ canvasWidth) && decide (direction = 1))

/-- Embeds `SpaceInvadersGame.moveEnemies()`: first every enemy is checked
against the edges to compute one `hitEdge` flag; if set, the direction is
negated and every enemy moves down by its `dropSpeed`; otherwise every
enemy moves horizontally by `enemy.speed * this.enemyDirection`. -/
def moveEnemies (canvasWidth : ℚ) (s : Swarm) : Swarm :=
  let hitEdge := s.enemies.any (hitsEdge canvasWidth s.direction)
  if hitEdge then
    { enemies := s.enemies.map moveDown, direction := s.direction * (-1) }
  else
    { enemies := s.enemies.map (fun e => { e with x := e.x + e.speed * (s.direction : ℚ) }),
      direction := s.direction }

/-- One cell of a wall's block grid, with its wall-local offset. -/
structure Block where
  x : ℚ
  y : ℚ
  active : Bool
deriving DecidableEq, Repr

/-- Destructible wall state: the fields of `class Wall` that `takeDamage`
reads or writes. -/
structure Wall where
  x : ℚ
  y : ℚ
  width : ℚ
  height : ℚ
  maxHealth : ℤ
  health : ℤ
  blockSize : ℚ
  blocks : List Block
  active : Bool
deriving DecidableEq, Repr

/-- Embeds `Wall.createBlocks()`: a rows×cols grid of blocks with
`cols = Math.floor(width / blockSize)` and `rows = Math.floor(height / blockSize)`. -/
def createBlocks (width height blockSize : ℚ) : List Block :=
  let cols := (Int.floor (width / blockSize)).toNat
  let rows := (Int.floor (height / blockSize)).toNat
  (List.range rows).flatMap (fun row =>
    (List.range cols).map (fun col =>
      { x := (col : ℚ) * blockSize, y := (row : ℚ) * blockSize, active := true }))

/-- Embeds the `Wall` constructor: full health, block size 4, block grid
from `createBlocks`, active. -/
def mkWall (x y width height : ℚ) (health : ℤ) : Wall :=
  { x := x, y := y, width := width, height := height,
    maxHealth := health, health := health,
    blockSize := 4, blocks := createBlocks width height 4, active := true }

/-- Embeds the per-block test inside `Wall.takeDamage`: the block is alive
and its center is strictly within the impact radius of the wall-local
impact point. The source compares `Math.sqrt(dx*dx+dy*dy) < radius`; this
embedding compares squares, which is equivalent for nonnegative radius. -/
def blockHit (blockSize localX localY impactRadius : ℚ) (b : Block) : Bool :=
  b.active &&
    decide ((b.x + blockSize / 2 - localX) ^ 2 + (b.y + blockSize / 2 - localY) ^ 2 <
      impactRadius ^ 2)

/-- The hit predicate of one `Wall.takeDamage(bulletX, bulletY,
isPlayerBullet)` call: impact radius 6 for player bullets, 8 for enemy
bullets, impact point converted to wall-local coordinates. -/
def Wall.hitBy (w : Wall) (bulletX bulletY : ℚ) (isPlayerBullet : Bool) : Block → Bool :=
  blockHit w.blockSize (bulletX - w.x) (bulletY - w.y) (if isPlayerBullet then 6 else 8)

/-- Embeds `Wall.takeDamage(bulletX, bulletY, isPlayerBullet)`. The source
deactivates hit blocks in a `forEach` while counting them; when the count
is zero that pass leaves every block unchanged, so the block update is
placed inside the positive branch here (in the negative branch the map
would be the identity). Returns the updated wall and the boolean result. -/
def Wall.takeDamage (w : Wall) (bulletX bulletY : ℚ) (isPlayerBullet : Bool) :
    Wall × Bool :=
  if w.health ≤ 0 then ({ w with active := false }, false)
  else
    let hit := w.hitBy bulletX bulletY isPlayerBullet
    if 0 < (w.blocks.filter hit).length then
      let blocks2 := w.blocks.map (fun b => if hit b then { b with active := false } else b)
      let health2 := max 0 (w.health - 1)
      let active2 :=
        if (blocks2.filter (fun b => b.active)).length = 0 ∨ health2 ≤ 0 then false
        else w.active
      ({ w with blocks := blocks2, health := health2, active := active2 }, true)
    else (w, false)

/-- Concrete wall used by the C3 witness: 8×4 at the origin, health 5, the
two live blocks its constructor produces (blockSize 4, a 1×2 grid). -/
def demoWall : Wall :=
  { x := 0, y := 0, width := 8, height := 4, maxHealth := 5, health := 5,
    blockSize := 4,
    blocks := [{ x := 0, y := 0, active := true }, { x := 4, y := 0, active := true }],
    active := true }

/-- Concrete wall with exhausted health but still-set active flag, used by
the C3 counterexample. -/
def demoDeadWall : Wall :=
  { x := 0, y := 0, width := 8, height := 4, maxHealth := 5, health := 0,
    blockSize := 4, blocks := [{ x := 0, y := 0, active := true }], active := true }

/-- The six power-up kinds handled by `PowerUp.setPowerUpProperties` and
`applyPowerUp`. -/
inductive PowerUpType
  | shield
  | multiShot
  | autoAim
  | rapidFire
  | lifeUp
  | points
deriving DecidableEq, Repr

/-- Player state: the fields of `class Player` (minus purely visual data). -/
structure Player where
  x : ℚ
  y : ℚ
  width : ℚ
  height : ℚ
  speed : ℚ
  shootCooldown : ℚ
  maxShootCooldown : ℚ
  baseShootCooldown : ℚ
  invulnerable : Bool
  invulnerabilityTime : ℚ
  maxInvulnerabilityTime : ℚ
  hasShield : Bool
  shieldTime : ℚ
  hasMultiShot : Bool
  hasAutoAim : Bool
  autoAimTime : ℚ
  hasRapidFire : Bool
  rapidFireTime : ℚ
deriving DecidableEq, Repr

/-- Embeds the `Player` constructor. -/
def mkPlayer (x y : ℚ) : Player :=
  { x := x, y := y, width := 40, height := 30, speed := 5,
    shootCooldown := 0, maxShootCooldown := 1/4, baseShootCooldown := 1/4,
    invulnerable := false, invulnerabilityTime := 0, maxInvulnerabilityTime := 2,
    hasShield := false, shieldTime := 0, hasMultiShot := false,
    hasAutoAim := false, autoAimTime := 0, hasRapidFire := false, rapidFireTime := 0 }

/-- Embeds `Player.activatePowerUp(type, duration)`; the switch has no
case for life-up or points, which leave the player unchanged. -/
def Player.activatePowerUp (p : Player) (t : PowerUpType) (duration : ℚ) : Player :=
  match t with
  | .shield => { p with hasShield := true, shieldTime := duration }
  | .multiShot => { p with hasMultiShot := true }
  | .autoAim => { p with hasAutoAim := true, autoAimTime := duration }
  | .rapidFire =>
      { p with hasRapidFire := true, rapidFireTime := duration, maxShootCooldown := 1/10 }
  | .lifeUp => p
  | .points => p

/-- Embeds `Player.takeDamage()`: shield consumes the hit; else multi-shot
is lost; then invulnerability decides whether damage is taken. Returns the
updated player and the boolean result. -/
def Player.takeDamage (p : Player) : Player × Bool :=
  if p.hasShield then ({ p with hasShield := false, shieldTime := 0 }, false)
  else
    let p2 := if p.hasMultiShot then { p with hasMultiShot := false } else p
    if p2.invulnerable = false then
      let p3 :=
        { p2 with invulnerable := true, invulnerabilityTime := p2.maxInvulnerabilityTime }
      (p3, true)
    else (p2, false)

/-- Concrete freshly spawned player used by witnesses. -/
def demoPlayer : Player := mkPlayer 380 550

/-- Power-up entity state from `class PowerUp`. -/
structure PowerUp where
  x : ℚ
  y : ℚ
  width : ℚ
  height : ℚ
  vy : ℚ
  lifetime : ℚ
  type : PowerUpType
  duration : ℚ
  active : Bool
deriving DecidableEq, Repr

/-- Embeds the `duration` assignments of `PowerUp.setPowerUpProperties`. -/
def powerUpDuration : PowerUpType → ℚ
  | .rapidFire => 8
  | .shield => 10
  | .multiShot => 0
  | .autoAim => 12
  | .lifeUp => 0
  | .points => 0

/-- Embeds the `PowerUp` constructor (size 25×25, fall speed 2, lifetime
10 seconds, properties from `setPowerUpProperties`). -/
def mkPowerUp (x y : ℚ) (t : PowerUpType) : PowerUp :=
  { x := x, y := y, width := 25, height := 25, vy := 2, lifetime := 10,
    type := t, duration := powerUpDuration t, active := true }

/-- Embeds the `types` array literal inside `spawnPowerUp`. The source
lists exactly these five entries; the points type does not appear. -/
def spawnPowerUpTypes : List PowerUpType :=
  [.shield, .multiShot, .autoAim, .rapidFire, .lifeUp]

/-- Embeds `types[Math.floor(Math.random() * types.length)]`, with the
random draw r ∈ [0,1) made explicit; the getD default is never reached
for draws in [0,1). -/
def chooseSpawnType (r : ℚ) : PowerUpType :=
  spawnPowerUpTypes.getD (Int.floor (r * (spawnPowerUpTypes.length : ℚ))).toNat .shield

/-- Embeds `spawnPowerUp(x, y)`: one power-up at (x − 12, y) of the drawn
type. -/
def spawnPowerUp (x y r : ℚ) : PowerUp :=
  mkPowerUp (x - 12) y (chooseSpawnType r)

/-- Embeds the drop roll at the enemy-kill site in `checkCollisions`:
`if (Math.random() < 0.1) this.spawnPowerUp(...)`, with the two random
draws r0 (drop roll) and r1 (type roll) made explicit. -/
def powerUpDrop (r0 r1 x y : ℚ) : Option PowerUp :=
  if r0 < 1/10 then some (spawnPowerUp x y r1) else none

/-- The wall block of a LevelConfig (`levelData.walls`). -/
structure WallConfig where
  count : ℕ
  width : ℚ
  height : ℚ
  health : ℤ
  yPosition : ℚ
deriving DecidableEq, Repr

/-- LevelConfig as consumed by the core (`this.levelData`). The fallback
literal additionally tags `generatedBy: 'fallback'`, a telemetry-only
string not modelled here. -/
structure LevelData where
  level : ℤ
  enemyCount : ℤ
  enemySpeed : ℚ
  enemyDropSpeed : ℚ
  enemyBulletSpeed : ℚ
  enemyBulletFrequency : ℚ
  enemyMoveDirection : ℤ
  enemyRows : ℕ
  enemyCols : ℕ
  pointsPerEnemy : ℤ
  enemyType : EnemyType
  walls : Option WallConfig
deriving DecidableEq, Repr

/-- Embeds the fixed literal default LevelConfig in the catch branch of
`SpaceInvadersGame.loadLevel`. -/
def defaultLevelData (levelNumber : ℤ) : LevelData :=
  { level := levelNumber, enemyCount := 15, enemySpeed := 1, enemyDropSpeed := 20,
    enemyBulletSpeed := 2, enemyBulletFrequency := 1/20000, enemyMoveDirection := 1,
    enemyRows := 3, enemyCols := 5, pointsPerEnemy := 10, enemyType := .basic,
    walls := none }

/-- Embeds the enemy grid of `SpaceInvadersGame.createEnemies()`: rows×cols
enemies spaced 50 apart starting at (50, 80), each constructed for the
level's enemy type and then overridden with the level's speed, drop speed,
bullet frequency and points. -/
def createEnemies (ld : LevelData) : List Enemy :=
  (List.range ld.enemyRows).flatMap (fun row =>
    (List.range ld.enemyCols).map (fun col =>
      let e := mkEnemy (50 + (col : ℚ) * 50) (80 + (row : ℚ) * 50) ld.enemyType
      { e with speed := ld.enemySpeed, dropSpeed := ld.enemyDropSpeed,
               shootFrequency := ld.enemyBulletFrequency, points := ld.pointsPerEnemy }))

/-- Embeds `this.enemyMoveInterval = Math.max(0.3, 1.5 - (this.currentLevel * 0.1))`
set by `createEnemies`. -/
def enemyMoveInterval (currentLevel : ℤ) : ℚ :=
  max (3/10) (3/2 - (currentLevel : ℚ) * (1/10))

/-- Embeds `SpaceInvadersGame.createWalls()`: wall configuration from the
level data or the documented default, then `count` evenly spaced walls. -/
def createWalls (canvasWidth canvasHeight : ℚ) (ld : LevelData) : List Wall :=
  let wc := ld.walls.getD
    { count := 4, width := 80, height := 60, health := 5, yPosition := canvasHeight - 150 }
  let totalWidth := (wc.count : ℚ) * wc.width
  let spacing := (canvasWidth - totalWidth) / ((wc.count : ℚ) + 1)
  (List.range wc.count).map (fun i =>
    mkWall (spacing + (i : ℚ) * (wc.width + spacing)) wc.yPosition wc.width wc.height
      wc.health)

/-- The level state assembled by `loadLevel` (level data plus the derived
collections and swarm parameters set by createEnemies/createWalls). -/
structure LoadedLevel where
  levelData : LevelData
  enemies : List Enemy
  walls : List Wall
  enemyDirection : ℤ
  enemyMoveInterval : ℚ
  totalEnemies : ℕ
  enemiesKilled : ℕ
deriving DecidableEq, Repr

/-- Embeds `SpaceInvadersGame.loadLevel(levelNumber)` with the awaited
fetch outcome made explicit: on success the fetched LevelConfig is used;
on failure (rejection) the fixed literal default is substituted; in both
cases enemies and walls are created and the call completes normally.
The wave interval uses `this.currentLevel`, which equals the requested
level number at every call site. -/
def loadLevel (canvasWidth canvasHeight : ℚ) (levelNumber : ℤ)
    (fetched : Except Unit LevelData) : LoadedLevel :=
  let ld := match fetched with
    | .ok d => d
    | .error _ => defaultLevelData levelNumber
  { levelData := ld,
    enemies := createEnemies ld,
    walls := createWalls canvasWidth canvasHeight ld,
    enemyDirection := ld.enemyMoveDirection,
    enemyMoveInterval := enemyMoveInterval levelNumber,
    totalEnemies := (createEnemies ld).length,
    enemiesKilled := 0 }

/-- Embeds the wave-timer fragment of `SpaceInvadersGame.updateEnemies`:
the delta-time is accumulated into the shared move timer; when it reaches
the move interval, one `moveEnemies()` wave step runs and the timer
resets to 0. -/
def updateEnemiesWave (timer deltaTime interval canvasWidth : ℚ) (s : Swarm) :
    ℚ × Swarm :=
  let t := timer + deltaTime
  if t ≥ interval then (0, moveEnemies canvasWidth s) else (t, s)

/-- Embeds the life-up case of `applyPowerUp`:
`this.lives = Math.min(this.lives + 1, 5)`. -/
def applyLifeUp (lives : ℤ) : ℤ := min (lives + 1) 5

/-- Lives effect of one `checkCollisions()` pass, with this tick's
environment summarized: the number of life-up power-ups collected in
phase 3, whether phase 5 saw `player.takeDamage()` return damage-taken
for some enemy bullet (at most once per tick — see
`player_damage_at_most_once` inside the C7 theorem), and whether phase 6
found an enemy at or below the player's y (which forces lives to 0). The
three effects apply in the source's phase order. -/
def collisionsLivesEffect (lives : ℤ) (lifeUps : ℕ) (damaged reached : Bool) : ℤ :=
  let l1 := applyLifeUp^[lifeUps] lives
  let l2 := if damaged then l1 - 1 else l1
  if reached then 0 else l2

/-- The game states of `this.gameState`. -/
inductive GState
  | menu
  | playing
  | paused
  | gameOver
  | levelComplete
deriving DecidableEq, Repr

/-- The lives-relevant projection of the game singleton. -/
structure Game where
  state : GState
  lives : ℤ
deriving DecidableEq, Repr

/-- One `gameLoop` iteration at the lives/state level: `update()` runs only
while playing; its collision pass produces the lives effect, then
`checkGameConditions()` moves to gameOver when lives ≤ 0, else to
levelComplete when no enemies remain. -/
def tick (g : Game) (lifeUps : ℕ) (damaged reached enemiesLeft : Bool) : Game :=
  if g.state = .playing then
    let l := collisionsLivesEffect g.lives lifeUps damaged reached
    if l ≤ 0 then { state := .gameOver, lives := l }
    else if enemiesLeft = false then { state := .levelComplete, lives := l }
    else { state := .playing, lives := l }
  else g

/-- External commands driving the remaining state-machine edges:
start/restart run `resetGame()` (lives back to 3) and enter playing;
`togglePause` switches playing and paused; the level-complete overlay
action reloads the level and re-enters playing. -/
inductive Cmd
  | start
  | pauseToggle
  | restart
  | nextLevel
deriving DecidableEq, Repr

/-- Embeds `startGame` / `togglePause` / `restartGame` /
`handleOverlayAction` (levelComplete case) at the lives/state level. -/
def applyCmd (g : Game) : Cmd → Game
  | .start => { state := .playing, lives := 3 }
  | .pauseToggle =>
      if g.state = .playing then { g with state := .paused }
      else if g.state = .paused then { g with state := .playing }
      else g
  | .restart => { state := .playing, lives := 3 }
  | .nextLevel =>
      if g.state = .levelComplete then { g with state := .playing } else g

/-- The lives invariant of the claim, strengthened with the fact that makes
it inductive: any state that can still tick or resume into playing has at
least one life. -/
def LivesInv (g : Game) : Prop :=
  0 ≤ g.lives ∧ g.lives ≤ 5 ∧
  ((g.state = .playing ∨ g.state = .paused ∨ g.state = .levelComplete) → 1 ≤ g.lives)

/-- Phase 5 of `checkCollisions` restricted to the player: n colliding
enemy bullets call `player.takeDamage()` in sequence; the second component
counts how many calls returned damage-taken (each such return decrements
lives in the source). -/
def processPlayerHits (p : Player) : ℕ → Player × ℕ
  | 0 => (p, 0)
  | n + 1 =>
      let r := Player.takeDamage p
      let rest := processPlayerHits r.1 n
      (rest.1, (if r.2 then 1 else 0) + rest.2)

/-- Bullet state from `class Bullet` (trail omitted: rendering only). -/
structure Bullet where
  x : ℚ
  y : ℚ
  width : ℚ
  height : ℚ
  vx : ℚ
  vy : ℚ
  isPlayerBullet : Bool
deriving DecidableEq, Repr

/-- Embeds `Entity.getBounds()` for bullets. -/
def Bullet.rect (b : Bullet) : Rect :=
  { x := b.x, y := b.y, width := b.width, height := b.height }

/-- Embeds `Entity.getBounds()` for walls. -/
def Wall.rect (w : Wall) : Rect :=
  { x := w.x, y := w.y, width := w.width, height := w.height }

/-- Embeds `Entity.getBounds()` for enemies. -/
def Enemy.rect (e : Enemy) : Rect :=
  { x := e.x, y := e.y, width := e.width, height := e.height }

/-- Embeds `Entity.getBounds()` for the player. -/
def Player.rect (p : Player) : Rect :=
  { x := p.x, y := p.y, width := p.width, height := p.height }

/-- Embeds `Entity.getBounds()` for power-ups. -/
def PowerUp.rect (p : PowerUp) : Rect :=
  { x := p.x, y := p.y, width := p.width, height := p.height }

/-- Inner loop of collision phases 1 and 4 (bullets × walls): the bullet
is tested against each wall in index order (`w = 0` upward); the first
active overlapping wall takes damage at the bullet's center — with
is-player-bullet true in phase 1 and false in phase 4 — and the loop
breaks, reporting a hit. -/
def hitFirstWall (isPlayer : Bool) (b : Bullet) : List Wall → List Wall × Bool
  | [] => ([], false)
  | w :: ws =>
      if w.active && checkCollision b.rect w.rect then
        ((Wall.takeDamage w (b.x + b.width / 2) (b.y + b.height / 2) isPlayer).1 :: ws,
         true)
      else
        let r := hitFirstWall isPlayer b ws
        (w :: r.1, r.2)

/-- Outer loop of collision phases 1 and 4 (player bullets × walls and
enemy bullets × walls share this shape): the source iterates bullet
indexes from last to first, splicing a bullet out the moment it hits a
wall, so later-indexed bullets are processed first and survivors keep
their order. -/
def bulletsVsWalls (isPlayer : Bool) : List Bullet → List Wall → List Bullet × List Wall
  | [], walls => ([], walls)
  | b :: bs, walls =>
      let r := bulletsVsWalls isPlayer bs walls
      let h := hitFirstWall isPlayer b r.2
      (if h.2 then r.1 else b :: r.1, h.1)

/-- Phase 1 followed by the wall prune that the source performs right
after it (`this.walls = this.walls.filter(wall => wall.active)`), before
phases 2–6 run. -/
def phase1AndPrune (bullets : List Bullet) (walls : List Wall) :
    List Bullet × List Wall :=
  let r := bulletsVsWalls true bullets walls
  (r.1, r.2.filter (fun w => w.active))

/-- Inner loop of collision phase 2 (player bullets × enemies): the source
iterates enemy indexes from last to first and splices out the first
overlapping enemy it finds (the last one in list order), then breaks. -/
def removeLastHitEnemy (b : Bullet) : List Enemy → List Enemy × Bool
  | [] => ([], false)
  | e :: es =>
      let r := removeLastHitEnemy b es
      if r.2 then (e :: r.1, true)
      else if checkCollision b.rect e.rect then (es, true)
      else (e :: es, false)

/-- Outer loop of collision phase 2: bullets processed from last index to
first; a bullet that kills an enemy is spliced out immediately (score,
explosion and the power-up roll of that branch are modelled separately). -/
def phase2 : List Bullet → List Enemy → List Bullet × List Enemy
  | [], enemies => ([], enemies)
  | b :: bs, enemies =>
      let r := phase2 bs enemies
      let h := removeLastHitEnemy b r.2
      (if h.2 then r.1 else b :: r.1, h.1)

/-- Collision phase 3 (power-ups × player): the source iterates power-up
indexes from last to first and splices out every power-up overlapping the
player (applying its effect); the surviving list is exactly the filter of
non-overlapping ones, in order. The player's bounds never change during
the loop. -/
def phase3 (player : Player) (powerUps : List PowerUp) : List PowerUp :=
  powerUps.filter (fun pu => !(checkCollision pu.rect player.rect))

/-- Collision phase 5 (enemy bullets × player): bullets processed from
last index to first; an overlapping bullet calls `player.takeDamage()`
and is spliced out regardless of the damage outcome; the damage-taken
count (each decrementing lives in the source) is returned as well. -/
def phase5 : List Bullet → Player → List Bullet × Player × ℕ
  | [], p => ([], p, 0)
  | b :: bs, p =>
      let r := phase5 bs p
      if checkCollision b.rect r.2.1.rect then
        let d := Player.takeDamage r.2.1
        (r.1, d.1, r.2.2 + (if d.2 then 1 else 0))
      else (b :: r.1, r.2.1, r.2.2)

/-- Concrete player bullet overlapping `demoWall`, used for C8. -/
def demoBullet : Bullet :=
  { x := 2, y := 1, width := 4, height := 8, vx := 0, vy := -8, isPlayerBullet := true }

/-- Concrete basic enemy at the origin, overlapping `demoBullet`. -/
def demoEnemy : Enemy := mkEnemy 0 0 .basic

/-- Concrete player at the origin, overlapping `demoBullet`. -/
def demoHitPlayer : Player := mkPlayer 0 0

/-- Concrete power-up at the origin, overlapping `demoHitPlayer`. -/
def demoPowerUp : PowerUp := mkPowerUp 2 1 .shield

/-- Concrete two-enemy swarm moving right with the second enemy flush
against the right edge of an 800-wide canvas; used by witnesses. -/
def demoSwarm : Swarm :=
  { enemies :=
      [ { x := 100, y := 80, width := 30, height := 25, speed := 1, dropSpeed := 20,
          type := .basic, points := 10, shootFrequency := 0 },
        { x := 770, y := 80, width := 30, height := 25, speed := 1, dropSpeed := 20,
          type := .basic, points := 10, shootFrequency := 0 } ],
    direction := 1 }

/-- C2: the overlap predicate is strict axis-aligned bounding-box
intersection — true exactly when the four strict inequalities hold;
rectangles sharing only a boundary edge do not overlap; rectangles with a
positive-area intersection do. -/
theorem checkCollision_strict_aabb (a b : Rect) :
    (checkCollision a b = true ↔
      (a.x < b.x + b.width ∧ a.x + a.width > b.x ∧
       a.y < b.y + b.height ∧ a.y + a.height > b.y)) ∧
    (a.x + a.width = b.x → checkCollision a b = false) ∧
    ((max a.x b.x < min (a.x + a.width) (b.x + b.width) ∧
      max a.y b.y < min (a.y + a.height) (b.y + b.height)) →
      checkCollision a b = true) := by
  have hiff : checkCollision a b = true ↔
      (a.x < b.x + b.width ∧ a.x + a.width > b.x ∧
       a.y < b.y + b.height ∧ a.y + a.height > b.y) := by
    simp [checkCollision, and_assoc]
  refine ⟨hiff, ?_, ?_⟩
  · intro h
    cases hcb : checkCollision a b with
    | false => rfl
    | true =>
      exact absurd ((hiff.mp hcb).2.1) (by rw [h]; exact lt_irrefl _)
  · rintro ⟨hx, hy⟩
    simp only [max_lt_iff, lt_min_iff] at hx hy
    obtain ⟨⟨hx1, hx2⟩, hx3, hx4⟩ := hx
    obtain ⟨⟨hy1, hy2⟩, hy3, hy4⟩ := hy
    exact hiff.mpr ⟨by linarith, by linarith, by linarith, by linarith⟩

/-- Closed witness for C2: touching rectangles do not collide. -/
theorem checkCollision_strict_aabb_witness :
    checkCollision ⟨0, 0, 5, 5⟩ ⟨5, 0, 5, 5⟩ = false :=
  (checkCollision_strict_aabb ⟨0, 0, 5, 5⟩ ⟨5, 0, 5, 5⟩).2.1 (by norm_num)

/-- C1: a wave step computes one hit-edge flag over every enemy for the
current direction; if set, the shared direction flips and every enemy's y
gains its dropSpeed with x unchanged; otherwise every enemy's x gains
speed·direction with y unchanged. In particular, with direction = +1 and
some enemy flush against the right edge (x+width = canvasWidth), the step
sets direction to −1 and drops every enemy. -/
theorem moveEnemies_wave_step (canvasWidth : ℚ) (s : Swarm) :
    (s.enemies.any (hitsEdge canvasWidth s.direction) = true →
      (moveEnemies canvasWidth s).direction = -s.direction ∧
      (moveEnemies canvasWidth s).enemies =
        s.enemies.map (fun e => { e with y := e.y + e.dropSpeed })) ∧
    (s.enemies.any (hitsEdge canvasWidth s.direction) = false →
      (moveEnemies canvasWidth s).direction = s.direction ∧
      (moveEnemies canvasWidth s).enemies =
        s.enemies.map (fun e => { e with x := e.x + e.speed * (s.direction : ℚ) })) ∧
    (s.direction = 1 → (∃ e ∈ s.enemies, e.x + e.width = canvasWidth) →
      (moveEnemies canvasWidth s).direction = -1 ∧
      (moveEnemies canvasWidth s).enemies =
        s.enemies.map (fun e => { e with y := e.y + e.dropSpeed })) := by
  refine ⟨?_, ?_, ?_⟩
  · intro h
    simp only [moveEnemies, h, if_true]
    exact ⟨by ring, rfl⟩
  · intro h
    simp only [moveEnemies, h, Bool.false_eq_true, if_false]
    exact ⟨by trivial, by trivial⟩
  · rintro hdir ⟨e, he, hedge⟩
    have hany : s.enemies.any (hitsEdge canvasWidth s.direction) = true := by
      rw [List.any_eq_true]
      refine ⟨e, he, ?_⟩
      simp [hitsEdge, hdir, hedge.ge]
    simp only [moveEnemies, hany, if_true]
    refine ⟨by rw [hdir]; ring, ?_⟩
    trivial

/-- Closed witness for C1: on the demo swarm (direction +1, one enemy with
x+width = 800) the wave step flips direction and drops every enemy. -/
theorem moveEnemies_wave_step_witness :
    (moveEnemies 800 demoSwarm).direction = -1 ∧
    (moveEnemies 800 demoSwarm).enemies =
      demoSwarm.enemies.map (fun e => { e with y := e.y + e.dropSpeed }) :=
  (moveEnemies_wave_step 800 demoSwarm).2.2 rfl
    ⟨demoSwarm.enemies.get ⟨1, by decide⟩, by decide, by norm_num [demoSwarm]⟩

/-- C10: when every enemy carries the same speed and dropSpeed (as
createEnemies establishes from the level data), a wave step applies one
common displacement to all enemies, so pairwise coordinate differences are
preserved — the formation moves rigidly. -/
theorem moveEnemies_rigid_formation (canvasWidth v d : ℚ) (s : Swarm)
    (hsp : ∀ e ∈ s.enemies, e.speed = v) (hdp : ∀ e ∈ s.enemies, e.dropSpeed = d) :
    ∃ hlen : (moveEnemies canvasWidth s).enemies.length = s.enemies.length,
      ∀ i j : Fin s.enemies.length,
        ((moveEnemies canvasWidth s).enemies.get (Fin.cast hlen.symm i)).x -
            ((moveEnemies canvasWidth s).enemies.get (Fin.cast hlen.symm j)).x =
          (s.enemies.get i).x - (s.enemies.get j).x ∧
        ((moveEnemies canvasWidth s).enemies.get (Fin.cast hlen.symm i)).y -
            ((moveEnemies canvasWidth s).enemies.get (Fin.cast hlen.symm j)).y =
          (s.enemies.get i).y - (s.enemies.get j).y := by
  by_cases h : s.enemies.any (hitsEdge canvasWidth s.direction) = true
  · obtain ⟨-, henemies⟩ := (moveEnemies_wave_step canvasWidth s).1 h
    have hlen : (moveEnemies canvasWidth s).enemies.length = s.enemies.length := by
      rw [henemies, List.length_map]
    refine ⟨hlen, fun i j => ?_⟩
    have hi := List.get_of_eq henemies (Fin.cast hlen.symm i)
    have hj := List.get_of_eq henemies (Fin.cast hlen.symm j)
    rw [List.get_map] at hi hj
    have hdi := hdp (s.enemies.get i) (s.enemies.get_mem _ _)
    have hdj := hdp (s.enemies.get j) (s.enemies.get_mem _ _)
    constructor
    · rw [hi, hj]; rfl
    · show ({ s.enemies.get i with y := _ } : Enemy).y - _ = _
      rw [hi, hj]
      show (s.enemies.get i).y + (s.enemies.get i).dropSpeed -
        ((s.enemies.get j).y + (s.enemies.get j).dropSpeed) = _
      rw [hdi, hdj]; ring
  · rw [Bool.not_eq_true] at h
    obtain ⟨-, henemies⟩ := (moveEnemies_wave_step canvasWidth s).2.1 h
    have hlen : (moveEnemies canvasWidth s).enemies.length = s.enemies.length := by
      rw [henemies, List.length_map]
    refine ⟨hlen, fun i j => ?_⟩
    have hi := List.get_of_eq henemies (Fin.cast hlen.symm i)
    have hj := List.get_of_eq henemies (Fin.cast hlen.symm j)
    rw [List.get_map] at hi hj
    have hvi := hsp (s.enemies.get i) (s.enemies.get_mem _ _)
    have hvj := hsp (s.enemies.get j) (s.enemies.get_mem _ _)
    constructor
    · rw [hi, hj]
      show (s.enemies.get i).x + (s.enemies.get i).speed * _ -
        ((s.enemies.get j).x + (s.enemies.get j).speed * _) = _
      rw [hvi, hvj]; ring
    · rw [hi, hj]; rfl

/-- Closed witness for C10: the demo swarm has uniform speed 1 and
dropSpeed 20, so the wave step preserves pairwise differences. -/
theorem moveEnemies_rigid_formation_witness :
    ∃ hlen : (moveEnemies 800 demoSwarm).enemies.length = demoSwarm.enemies.length,
      ∀ i j : Fin demoSwarm.enemies.length,
        ((moveEnemies 800 demoSwarm).enemies.get (Fin.cast hlen.symm i)).x -
            ((moveEnemies 800 demoSwarm).enemies.get (Fin.cast hlen.symm j)).x =
          (demoSwarm.enemies.get i).x - (demoSwarm.enemies.get j).x ∧
        ((moveEnemies 800 demoSwarm).enemies.get (Fin.cast hlen.symm i)).y -
            ((moveEnemies 800 demoSwarm).enemies.get (Fin.cast hlen.symm j)).y =
          (demoSwarm.enemies.get i).y - (demoSwarm.enemies.get j).y :=
  moveEnemies_rigid_formation 800 1 20 demoSwarm (by decide) (by decide)

/-- C3 counterexample: a wall whose health is already 0 but whose active
flag is still set is NOT left unchanged by `takeDamage` — the call flips
`active` to false (while returning the no-damage result), so "takes no
action (no field of the wall changes)" fails at this input. -/
theorem wall_takeDamage_dead_counterexample :
    demoDeadWall.health ≤ 0 ∧ demoDeadWall.active = true ∧
    (Wall.takeDamage demoDeadWall 0 0 true).2 = false ∧
    (Wall.takeDamage demoDeadWall 0 0 true).1.active = false := by decide

/-- C3 (amended): with health ≤ 0 the call returns no damage, destroys no
blocks and changes nothing except forcing `active := false`. With health >
0: exactly the live blocks whose center is strictly within the impact
radius are deactivated; the call returns damage-applied iff at least one
block was destroyed; a damaging call decrements health by exactly one
(regardless of how many blocks it destroyed); a non-damaging call changes
nothing; and a damaging call on an active wall leaves the wall inactive
exactly when no live block remains or health reached 0. -/
theorem wall_takeDamage_spec (w : Wall) (bulletX bulletY : ℚ) (ipb : Bool) :
    (w.health ≤ 0 →
      Wall.takeDamage w bulletX bulletY ipb = ({ w with active := false }, false)) ∧
    (0 < w.health →
      ((Wall.takeDamage w bulletX bulletY ipb).1.blocks =
        w.blocks.map (fun b =>
          if w.hitBy bulletX bulletY ipb b then { b with active := false } else b)) ∧
      ((Wall.takeDamage w bulletX bulletY ipb).2 = true ↔
        ∃ b ∈ w.blocks, w.hitBy bulletX bulletY ipb b = true) ∧
      ((Wall.takeDamage w bulletX bulletY ipb).2 = true →
        (Wall.takeDamage w bulletX bulletY ipb).1.health = w.health - 1) ∧
      ((Wall.takeDamage w bulletX bulletY ipb).2 = false →
        (Wall.takeDamage w bulletX bulletY ipb).1 = w) ∧
      ((Wall.takeDamage w bulletX bulletY ipb).2 = true → w.active = true →
        ((Wall.takeDamage w bulletX bulletY ipb).1.active = false ↔
          (((Wall.takeDamage w bulletX bulletY ipb).1.blocks.filter
              (fun b => b.active)).length = 0 ∨
            (Wall.takeDamage w bulletX bulletY ipb).1.health ≤ 0)))) := by
  constructor
  · intro h
    simp [Wall.takeDamage, h]
  · intro h
    have hng : ¬ w.health ≤ 0 := not_le.mpr h
    by_cases hpos : 0 < (w.blocks.filter (w.hitBy bulletX bulletY ipb)).length
    · have heq : Wall.takeDamage w bulletX bulletY ipb =
          ({ w with
              blocks := w.blocks.map (fun b =>
                if w.hitBy bulletX bulletY ipb b then { b with active := false } else b),
              health := max 0 (w.health - 1),
              active :=
                if ((w.blocks.map (fun b =>
                      if w.hitBy bulletX bulletY ipb b then { b with active := false }
                      else b)).filter (fun b => b.active)).length = 0 ∨
                    max 0 (w.health - 1) ≤ 0 then false
                else w.active }, true) := by
        simp [Wall.takeDamage, hng, hpos]
      refine ⟨by rw [heq], ?_, ?_, ?_, ?_⟩
      · rw [heq]
        refine ⟨fun _ => ?_, fun _ => rfl⟩
        obtain ⟨b, hb⟩ := List.length_pos_iff_exists_mem.mp hpos
        exact ⟨b, (List.mem_filter.mp hb).1, (List.mem_filter.mp hb).2⟩
      · intro _
        rw [heq]
        show max 0 (w.health - 1) = w.health - 1
        omega
      · intro hfalse
        rw [heq] at hfalse
        simp at hfalse
      · intro _ hact
        rw [heq]
        by_cases hcond : ((w.blocks.map (fun b =>
            if w.hitBy bulletX bulletY ipb b then { b with active := false }
            else b)).filter (fun b => b.active)).length = 0 ∨ max 0 (w.health - 1) ≤ 0
        · simp only [if_pos hcond]
          exact iff_of_true (by trivial) hcond
        · simp only [if_neg hcond]
          rw [hact]
          exact iff_of_false (by simp) hcond
    · have hnone : ∀ b ∈ w.blocks, w.hitBy bulletX bulletY ipb b = false := by
        intro b hb
        by_contra hcon
        rw [Bool.not_eq_false] at hcon
        have : b ∈ w.blocks.filter (w.hitBy bulletX bulletY ipb) :=
          List.mem_filter.mpr ⟨hb, hcon⟩
        exact hpos (List.length_pos_iff_exists_mem.mpr ⟨b, this⟩)
      have heq : Wall.takeDamage w bulletX bulletY ipb = (w, false) := by
        simp [Wall.takeDamage, hng, hpos]
      refine ⟨?_, ?_, ?_, ?_, ?_⟩
      · rw [heq]
        show w.blocks = _
        rw [List.map_congr_left (fun b hb => ?_), List.map_id]
        rw [hnone b hb]
        simp
      · rw [heq]
        simp only [Bool.false_eq_true, false_iff]
        rintro ⟨b, hb, hhit⟩
        rw [hnone b hb] at hhit
        exact Bool.false_ne_true hhit
      · intro habs
        rw [heq] at habs
        exact absurd habs (by simp)
      · intro _
        rw [heq]
      · intro habs
        rw [heq] at habs
        exact absurd habs (by simp)

/-- Closed witness for C3: on the two-block demo wall a centered player
bullet destroys both blocks, yet health drops by exactly one and the call
returns damage-applied; with zero blocks left the wall goes inactive. -/
theorem wall_takeDamage_spec_witness :
    (0 : ℤ) < demoWall.health ∧
    (Wall.takeDamage demoWall 2 2 true).2 = true ∧
    (Wall.takeDamage demoWall 2 2 true).1.health = demoWall.health - 1 ∧
    (Wall.takeDamage demoWall 2 2 true).1.active = false := by
  have hres : (Wall.takeDamage demoWall 2 2 true).2 = true := by
    norm_num [Wall.takeDamage, Wall.hitBy, blockHit, demoWall]
  refine ⟨by norm_num [demoWall], hres,
    ((wall_takeDamage_spec demoWall 2 2 true).2 (by norm_num [demoWall])).2.2.1 hres, ?_⟩
  norm_num [Wall.takeDamage, Wall.hitBy, blockHit, demoWall]

/-- C4: takeDamage consumes an active shield (flag cleared, timer zeroed,
no damage, invulnerability untouched); otherwise multi-shot is lost
without blocking damage; a non-invulnerable player takes damage and
becomes invulnerable with the fixed timer; an invulnerable player takes no
damage. A shield freshly activated absorbs exactly the next hit and
leaves the player exactly as a shield-less undamaged player. -/
theorem player_takeDamage_spec (p : Player) (d : ℚ) :
    (p.hasShield = true →
      Player.takeDamage p = ({ p with hasShield := false, shieldTime := 0 }, false)) ∧
    (p.hasShield = false → (Player.takeDamage p).1.hasMultiShot = false) ∧
    (p.hasShield = false → p.invulnerable = false →
      (Player.takeDamage p).2 = true ∧
      (Player.takeDamage p).1.invulnerable = true ∧
      (Player.takeDamage p).1.invulnerabilityTime = p.maxInvulnerabilityTime) ∧
    (p.hasShield = false → p.invulnerable = true →
      (Player.takeDamage p).2 = false ∧ (Player.takeDamage p).1.invulnerable = true) ∧
    (Player.takeDamage (p.activatePowerUp .shield d) =
      ({ p with hasShield := false, shieldTime := 0 }, false)) := by
  refine ⟨?_, ?_, ?_, ?_, ?_⟩
  · intro h
    simp [Player.takeDamage, h]
  · intro h
    by_cases hm : p.hasMultiShot <;> by_cases hi : p.invulnerable <;>
      simp [Player.takeDamage, h, hm, hi]
  · intro h hi
    by_cases hm : p.hasMultiShot <;> simp [Player.takeDamage, h, hm, hi]
  · intro h hi
    by_cases hm : p.hasMultiShot <;> simp [Player.takeDamage, h, hm, hi]
  · simp [Player.takeDamage, Player.activatePowerUp]

/-- Closed witness for C4: a fresh player (no shield, not invulnerable)
takes damage and gains the invulnerability window. -/
theorem player_takeDamage_spec_witness :
    (Player.takeDamage demoPlayer).2 = true ∧
    (Player.takeDamage demoPlayer).1.invulnerable = true ∧
    (Player.takeDamage demoPlayer).1.invulnerabilityTime =
      demoPlayer.maxInvulnerabilityTime :=
  (player_takeDamage_spec demoPlayer 0).2.2.1 rfl rfl

/-- C5 counterexample: the spawn table inside `spawnPowerUp` has exactly
five entries and the points type is not among them, so a points power-up
is not a possible spawn outcome — the claimed six-type uniform draw fails. -/
theorem spawnPowerUpTypes_no_points_counterexample :
    spawnPowerUpTypes.length = 5 ∧ PowerUpType.points ∉ spawnPowerUpTypes := by
  decide

/-- C5 (amended): on a qualifying kill a power-up spawns iff the drop
roll is below 10%, at (x − 12, y); the type roll selects uniformly among
the five table entries {shield, multi-shot, auto-aim, rapid-fire,
life-up} — the i-th fifth of [0,1) yields entry i, so each of the five is
a possible outcome — and the points type is never spawned. -/
theorem powerUp_spawn_spec (x y r0 r : ℚ) (i : Fin 5)
    (h1 : (i : ℚ) / 5 ≤ r) (h2 : r < ((i : ℚ) + 1) / 5) :
    ((powerUpDrop r0 r x y).isSome = true ↔ r0 < 1/10) ∧
    (r0 < 1/10 →
      powerUpDrop r0 r x y = some (mkPowerUp (x - 12) y (chooseSpawnType r))) ∧
    chooseSpawnType r = spawnPowerUpTypes.get ⟨i.val, i.isLt⟩ ∧
    chooseSpawnType r ≠ PowerUpType.points := by
  have hlen : ((spawnPowerUpTypes.length : ℚ)) = 5 := by norm_num [spawnPowerUpTypes]
  have hfloor : Int.floor (r * (spawnPowerUpTypes.length : ℚ)) = (i.val : ℤ) := by
    rw [hlen]
    rw [Int.floor_eq_iff]
    constructor
    · push_cast
      linarith
    · push_cast
      linarith
  have hget : chooseSpawnType r = spawnPowerUpTypes.get ⟨i.val, i.isLt⟩ := by
    unfold chooseSpawnType
    rw [hfloor]
    rw [Int.toNat_ofNat]
    exact List.getD_eq_get spawnPowerUpTypes PowerUpType.shield i.isLt
  refine ⟨?_, ?_, hget, ?_⟩
  · by_cases h : r0 < 1/10 <;> simp [powerUpDrop, h]
  · intro h
    unfold powerUpDrop
    rw [if_pos h]
    rfl
  · intro hEq
    have hmem : PowerUpType.points ∈ spawnPowerUpTypes := by
      rw [← hEq, hget]
      exact List.get_mem spawnPowerUpTypes i.val i.isLt
    exact spawnPowerUpTypes_no_points_counterexample.2 hmem

/-- Closed witness for C5: with drop roll 1/20 (< 10%) and type roll 9/10
(the last fifth of the unit interval) a life-up power-up spawns 12 to the
left of the kill point. -/
theorem powerUp_spawn_spec_witness :
    powerUpDrop (1/20) (9/10) 100 200 =
      some (mkPowerUp (100 - 12) 200 (chooseSpawnType (9/10))) ∧
    chooseSpawnType (9/10) = PowerUpType.lifeUp := by
  have h := powerUp_spawn_spec 100 200 (1/20) (9/10) ⟨4, by norm_num⟩
    (by push_cast; norm_num) (by push_cast; norm_num)
  exact ⟨h.2.1 (by norm_num), by rw [h.2.2.1]; rfl⟩

/-- C6: when the level-data fetch rejects, loadLevel substitutes the fixed
literal default LevelConfig (enemyCount 15, 3×5 basic enemies, speed 1,
drop 20, bullet speed 2, bullet frequency 0.00005, 10 points per enemy)
and still creates the enemies (15 of them) and the default four walls; the
call is total, so no error propagates to the tick path. -/
theorem loadLevel_fallback (canvasWidth canvasHeight : ℚ) (lvl : ℤ) :
    (loadLevel canvasWidth canvasHeight lvl (.error ())).levelData =
      defaultLevelData lvl ∧
    (defaultLevelData lvl).enemyCount = 15 ∧
    (defaultLevelData lvl).enemyRows = 3 ∧
    (defaultLevelData lvl).enemyCols = 5 ∧
    (defaultLevelData lvl).enemySpeed = 1 ∧
    (defaultLevelData lvl).enemyDropSpeed = 20 ∧
    (defaultLevelData lvl).enemyBulletSpeed = 2 ∧
    (defaultLevelData lvl).enemyBulletFrequency = 1/20000 ∧
    (defaultLevelData lvl).enemyType = EnemyType.basic ∧
    (defaultLevelData lvl).pointsPerEnemy = 10 ∧
    (defaultLevelData lvl).level = lvl ∧
    (loadLevel canvasWidth canvasHeight lvl (.error ())).enemies.length = 15 ∧
    (loadLevel canvasWidth canvasHeight lvl (.error ())).walls.length = 4 := by
  refine ⟨rfl, rfl, rfl, rfl, rfl, rfl, rfl, rfl, rfl, rfl, rfl, ?_, ?_⟩
  · show (createEnemies (defaultLevelData lvl)).length = 15
    rfl
  · show (createWalls canvasWidth canvasHeight (defaultLevelData lvl)).length = 4
    rfl

/-- C9: each tick the delta-time accumulates into the shared move timer;
exactly one wave step runs, with the timer reset to 0, when the
accumulated timer reaches the interval, and none otherwise; and the
per-level interval set at level creation is max(0.3, 1.5 − 0.1·level). -/
theorem updateEnemies_wave_timer (timer deltaTime interval canvasWidth : ℚ)
    (s : Swarm) (lvl : ℤ) :
    (timer + deltaTime ≥ interval →
      updateEnemiesWave timer deltaTime interval canvasWidth s =
        (0, moveEnemies canvasWidth s)) ∧
    (timer + deltaTime < interval →
      updateEnemiesWave timer deltaTime interval canvasWidth s = (timer + deltaTime, s)) ∧
    enemyMoveInterval lvl = max (3/10) (3/2 - (lvl : ℚ) * (1/10)) := by
  refine ⟨?_, ?_, rfl⟩
  · intro h
    unfold updateEnemiesWave
    rw [if_pos h]
  · intro h
    unfold updateEnemiesWave
    rw [if_neg (not_le.mpr h)]

/-- Closed witness for C9: timer 1/4 plus delta 1/10 reaches the level-12
interval 3/10, so the wave step fires and the timer resets. -/
theorem updateEnemies_wave_timer_witness :
    updateEnemiesWave (1/4) (1/10) (3/10) 800 demoSwarm =
      (0, moveEnemies 800 demoSwarm) :=
  (updateEnemies_wave_timer (1/4) (1/10) (3/10) 800 demoSwarm 12).1 (by norm_num)

/-- Helper: takeDamage on an invulnerable player reports no damage and
leaves the player invulnerable. -/
theorem takeDamage_keeps_invulnerable (p : Player) (h : p.invulnerable = true) :
    (Player.takeDamage p).2 = false ∧ (Player.takeDamage p).1.invulnerable = true := by
  by_cases hs : p.hasShield <;> by_cases hm : p.hasMultiShot <;>
    simp [Player.takeDamage, hs, hm, h]

/-- Helper: a damage-taken result leaves the player invulnerable. -/
theorem takeDamage_true_invulnerable (p : Player)
    (h : (Player.takeDamage p).2 = true) :
    (Player.takeDamage p).1.invulnerable = true := by
  by_cases hs : p.hasShield <;> by_cases hm : p.hasMultiShot <;>
    by_cases hi : p.invulnerable <;>
    simp [Player.takeDamage, hs, hm, hi] at h ⊢

/-- Helper: once invulnerable, no further hit in the same pass counts. -/
theorem processPlayerHits_invulnerable (p : Player) (n : ℕ)
    (h : p.invulnerable = true) : (processPlayerHits p n).2 = 0 := by
  induction n generalizing p with
  | zero => rfl
  | succ n ih =>
      have hk := takeDamage_keeps_invulnerable p h
      simp [processPlayerHits, hk.1, ih _ hk.2]

/-- Helper: at most one of the takeDamage calls of a single collision pass
returns damage-taken. -/
theorem processPlayerHits_le_one (p : Player) (n : ℕ) :
    (processPlayerHits p n).2 ≤ 1 := by
  induction n generalizing p with
  | zero => simp [processPlayerHits]
  | succ n ih =>
      by_cases hr : (Player.takeDamage p).2 = true
      · have hi := takeDamage_true_invulnerable p hr
        simp [processPlayerHits, hr,
          processPlayerHits_invulnerable (Player.takeDamage p).1 n hi]
      · rw [Bool.not_eq_true] at hr
        simp only [processPlayerHits, hr, if_false]
        simpa using ih (Player.takeDamage p).1

/-- Helper: iterating the capped life-up keeps lives within [1, 5]. -/
theorem applyLifeUp_iterate_bounds (n : ℕ) (l : ℤ) (h1 : 1 ≤ l) (h5 : l ≤ 5) :
    1 ≤ applyLifeUp^[n] l ∧ applyLifeUp^[n] l ≤ 5 := by
  induction n generalizing l with
  | zero => simpa using ⟨h1, h5⟩
  | succ n ih =>
      rw [Function.iterate_succ_apply]
      exact ih (applyLifeUp l) (by simp only [applyLifeUp]; omega)
        (by simp only [applyLifeUp]; omega)

/-- Helper: one collision pass keeps lives within [0, 5] when the tick
started with at least one life. -/
theorem collisionsLivesEffect_bounds (l : ℤ) (n : ℕ) (damaged reached : Bool)
    (h1 : 1 ≤ l) (h5 : l ≤ 5) :
    0 ≤ collisionsLivesEffect l n damaged reached ∧
    collisionsLivesEffect l n damaged reached ≤ 5 := by
  obtain ⟨ha, hb⟩ := applyLifeUp_iterate_bounds n l h1 h5
  unfold collisionsLivesEffect
  cases damaged <;> cases reached <;> simp <;> omega

/-- C7: the lives invariant 0 ≤ lives ≤ 5 (with at least one life in any
state that can tick or resume) is preserved by every tick and every
external command; the capped life-up fixes 5 and sends 4 to 5; the
enemy-reached-player check forces the pass result to exactly 0; at most
one takeDamage call per pass reports damage-taken (so lives drop by at
most 1 per tick); and a tick that remains in playing keeps a positive
lives count, so the gameOver transition fires before lives could go
negative on a later tick. -/
theorem lives_invariant_spec (g : Game) (lifeUps : ℕ)
    (damaged reached enemiesLeft : Bool) (c : Cmd) (p : Player) (n : ℕ)
    (hInv : LivesInv g) :
    LivesInv (tick g lifeUps damaged reached enemiesLeft) ∧
    LivesInv (applyCmd g c) ∧
    applyLifeUp 5 = 5 ∧
    applyLifeUp 4 = 5 ∧
    (reached = true → collisionsLivesEffect g.lives lifeUps damaged reached = 0) ∧
    (processPlayerHits p n).2 ≤ 1 ∧
    ((tick g lifeUps damaged reached enemiesLeft).state = .playing →
      1 ≤ (tick g lifeUps damaged reached enemiesLeft).lives) := by
  obtain ⟨h0, h5, hp⟩ := hInv
  have htick : LivesInv (tick g lifeUps damaged reached enemiesLeft) := by
    by_cases hst : g.state = .playing
    · have hl1 : 1 ≤ g.lives := hp (Or.inl hst)
      obtain ⟨he0, he5⟩ :=
        collisionsLivesEffect_bounds g.lives lifeUps damaged reached hl1 h5
      unfold tick
      rw [if_pos hst]
      by_cases hle : collisionsLivesEffect g.lives lifeUps damaged reached ≤ 0
      · rw [if_pos hle]
        exact ⟨he0, he5, by rintro (h | h | h) <;> simp at h⟩
      · rw [if_neg hle]
        by_cases hen : enemiesLeft = false
        · rw [if_pos hen]
          refine ⟨he0, he5, fun _ => ?_⟩
          show 1 ≤ collisionsLivesEffect g.lives lifeUps damaged reached
          omega
        · rw [if_neg hen]
          refine ⟨he0, he5, fun _ => ?_⟩
          show 1 ≤ collisionsLivesEffect g.lives lifeUps damaged reached
          omega
    · unfold tick
      rw [if_neg hst]
      exact ⟨h0, h5, hp⟩
  have hcmd : LivesInv (applyCmd g c) := by
    cases c with
    | start =>
        exact ⟨by norm_num [applyCmd], by norm_num [applyCmd],
          fun _ => by norm_num [applyCmd]⟩
    | restart =>
        exact ⟨by norm_num [applyCmd], by norm_num [applyCmd],
          fun _ => by norm_num [applyCmd]⟩
    | pauseToggle =>
        by_cases hst : g.state = .playing
        · simp only [applyCmd, hst, if_pos]
          exact ⟨h0, h5, fun _ => hp (Or.inl hst)⟩
        · by_cases hst2 : g.state = .paused
          · simp only [applyCmd, hst, hst2, if_neg, if_pos]
            exact ⟨h0, h5, fun _ => hp (Or.inr (Or.inl hst2))⟩
          · simp only [applyCmd, hst, hst2, if_neg]
            exact ⟨h0, h5, hp⟩
    | nextLevel =>
        by_cases hst : g.state = .levelComplete
        · simp only [applyCmd, hst, if_pos]
          exact ⟨h0, h5, fun _ => hp (Or.inr (Or.inr hst))⟩
        · simp only [applyCmd, hst, if_neg]
          exact ⟨h0, h5, hp⟩
  refine ⟨htick, hcmd, rfl, rfl, ?_, processPlayerHits_le_one p n, ?_⟩
  · intro hr
    unfold collisionsLivesEffect
    rw [hr]
    simp
  · intro hpl
    by_cases hst : g.state = .playing
    · unfold tick at hpl ⊢
      rw [if_pos hst] at hpl ⊢
      by_cases hle : collisionsLivesEffect g.lives lifeUps damaged reached ≤ 0
      · rw [if_pos hle] at hpl
        simp at hpl
      · rw [if_neg hle] at hpl ⊢
        by_cases hen : enemiesLeft = false
        · rw [if_pos hen] at hpl
          simp at hpl
        · rw [if_neg hen] at hpl ⊢
          simp only
          omega
    · unfold tick at hpl ⊢
      rw [if_neg hst] at hpl ⊢
      exact hp (Or.inl hpl)

/-- Closed witness for C7: a playing tick with five lives, two collected
life-ups, a damaging hit and no boundary breach stays within the
invariant, and three successive hits on a fresh player score at most one
damage-taken. -/
theorem lives_invariant_spec_witness :
    LivesInv (tick ⟨.playing, 5⟩ 2 true false true) ∧
    (processPlayerHits demoPlayer 3).2 ≤ 1 := by
  have h := lives_invariant_spec ⟨.playing, 5⟩ 2 true false true .pauseToggle
    demoPlayer 3 ⟨by norm_num, by norm_num, fun _ => by norm_num⟩
  exact ⟨h.1, h.2.2.2.2.2.1⟩

/-- Helper: the inner wall loop of phases 1 and 4 damages a wall in
place, never removing one from the list. -/
theorem hitFirstWall_length (isPlayer : Bool) (b : Bullet) (walls : List Wall) :
    (hitFirstWall isPlayer b walls).1.length = walls.length := by
  induction walls with
  | nil => rfl
  | cons w ws ih =>
      by_cases h : (w.active && checkCollision b.rect w.rect) = true
      · simp [hitFirstWall, h]
      · simp [hitFirstWall, h, ih]

/-- Helper: phases 1 and 4 only ever drop bullets and keep the wall count. -/
theorem bulletsVsWalls_length (isPlayer : Bool) (bullets : List Bullet)
    (walls : List Wall) :
    (bulletsVsWalls isPlayer bullets walls).1.length ≤ bullets.length ∧
    (bulletsVsWalls isPlayer bullets walls).2.length = walls.length := by
  induction bullets generalizing walls with
  | nil => simp [bulletsVsWalls]
  | cons b bs ih =>
      obtain ⟨h1, h2⟩ := ih walls
      constructor
      · by_cases hh :
            (hitFirstWall isPlayer b (bulletsVsWalls isPlayer bs walls).2).2 = true
        · simp only [bulletsVsWalls, hh, if_pos]
          simp only [List.length_cons]
          omega
        · simp only [bulletsVsWalls, hh, if_neg, Bool.false_eq_true, not_false_eq_true]
          simp only [List.length_cons]
          omega
      · show (hitFirstWall isPlayer b (bulletsVsWalls isPlayer bs walls).2).1.length =
          walls.length
        rw [hitFirstWall_length]
        exact h2

/-- Helper: phases 1 and 4 split over list concatenation — the bullets at
the tail of the list are processed first (the source iterates indexes
downward), and survivors keep their order. -/
theorem bulletsVsWalls_append (isPlayer : Bool) (xs ys : List Bullet)
    (walls : List Wall) :
    bulletsVsWalls isPlayer (xs ++ ys) walls =
      ((bulletsVsWalls isPlayer xs (bulletsVsWalls isPlayer ys walls).2).1 ++
         (bulletsVsWalls isPlayer ys walls).1,
       (bulletsVsWalls isPlayer xs (bulletsVsWalls isPlayer ys walls).2).2) := by
  induction xs with
  | nil => simp [bulletsVsWalls]
  | cons x xs ih =>
      simp only [List.cons_append]
      by_cases hh :
          (hitFirstWall isPlayer x (bulletsVsWalls isPlayer (xs ++ ys) walls).2).2 = true
      · simp only [bulletsVsWalls, ih, hh, if_pos]
        rw [ih] at hh
        simp only [bulletsVsWalls, hh, if_pos]
      · simp only [bulletsVsWalls, ih, hh, if_neg, Bool.false_eq_true, not_false_eq_true]
        rw [ih] at hh
        simp only [bulletsVsWalls, hh, if_neg, Bool.false_eq_true, not_false_eq_true,
          List.cons_append]

/-- Helper: when the backward enemy scan reports no hit it leaves the
enemy list unchanged. -/
theorem removeLastHitEnemy_false (b : Bullet) (es : List Enemy)
    (h : (removeLastHitEnemy b es).2 = false) :
    (removeLastHitEnemy b es).1 = es := by
  induction es with
  | nil => rfl
  | cons e es ih =>
      by_cases hr : (removeLastHitEnemy b es).2 = true
      · simp [removeLastHitEnemy, hr] at h
      · rw [Bool.not_eq_true] at hr
        by_cases hc : checkCollision b.rect e.rect = true
        · simp [removeLastHitEnemy, hr, hc] at h
        · simp [removeLastHitEnemy, hr, hc]

/-- Helper: when the backward enemy scan reports a hit it has spliced out
exactly one enemy. -/
theorem removeLastHitEnemy_length (b : Bullet) (es : List Enemy)
    (h : (removeLastHitEnemy b es).2 = true) :
    (removeLastHitEnemy b es).1.length + 1 = es.length := by
  induction es with
  | nil => simp [removeLastHitEnemy] at h
  | cons e es ih =>
      by_cases hr : (removeLastHitEnemy b es).2 = true
      · have := ih hr
        simp only [removeLastHitEnemy, hr, if_pos, List.length_cons]
        omega
      · rw [Bool.not_eq_true] at hr
        by_cases hc : checkCollision b.rect e.rect = true
        · simp only [removeLastHitEnemy, hr, Bool.false_eq_true, not_false_eq_true,
            if_neg, hc, if_pos, List.length_cons]
        · simp [removeLastHitEnemy, hr, hc] at h

/-- Helper: the backward enemy scan checks the last enemy first, so an
overlapping enemy at the end of the list is the one spliced out. -/
theorem removeLastHitEnemy_append_hit (b : Bullet) (es : List Enemy) (e : Enemy)
    (hc : checkCollision b.rect e.rect = true) :
    removeLastHitEnemy b (es ++ [e]) = (es, true) := by
  induction es with
  | nil => simp [removeLastHitEnemy, hc]
  | cons a as ih =>
      simp only [List.cons_append, removeLastHitEnemy, List.append_eq]
      rw [ih]
      simp

/-- Helper: phase 2 only ever drops bullets and enemies. -/
theorem phase2_length (bullets : List Bullet) (enemies : List Enemy) :
    (phase2 bullets enemies).1.length ≤ bullets.length ∧
    (phase2 bullets enemies).2.length ≤ enemies.length := by
  induction bullets generalizing enemies with
  | nil => simp [phase2]
  | cons b bs ih =>
      obtain ⟨h1, h2⟩ := ih enemies
      constructor
      · by_cases hh : (removeLastHitEnemy b (phase2 bs enemies).2).2 = true
        · simp only [phase2, hh, if_pos]
          simp only [List.length_cons]
          omega
        · simp only [phase2, hh, if_neg, Bool.false_eq_true, not_false_eq_true]
          simp only [List.length_cons]
          omega
      · show (removeLastHitEnemy b (phase2 bs enemies).2).1.length ≤ enemies.length
        by_cases hh : (removeLastHitEnemy b (phase2 bs enemies).2).2 = true
        · have := removeLastHitEnemy_length b (phase2 bs enemies).2 hh
          omega
        · rw [Bool.not_eq_true] at hh
          rw [removeLastHitEnemy_false b (phase2 bs enemies).2 hh]
          exact h2

/-- Helper: phase 2 splits over list concatenation, tail bullets first. -/
theorem phase2_append (xs ys : List Bullet) (enemies : List Enemy) :
    phase2 (xs ++ ys) enemies =
      ((phase2 xs (phase2 ys enemies).2).1 ++ (phase2 ys enemies).1,
       (phase2 xs (phase2 ys enemies).2).2) := by
  induction xs with
  | nil => simp [phase2]
  | cons x xs ih =>
      simp only [List.cons_append]
      by_cases hh : (removeLastHitEnemy x (phase2 (xs ++ ys) enemies).2).2 = true
      · simp only [phase2, ih, hh, if_pos]
        rw [ih] at hh
        simp only [phase2, hh, if_pos]
      · simp only [phase2, ih, hh, if_neg, Bool.false_eq_true, not_false_eq_true]
        rw [ih] at hh
        simp only [phase2, hh, if_neg, Bool.false_eq_true, not_false_eq_true,
          List.cons_append]

/-- Helper: phase 5 only ever drops enemy bullets. -/
theorem phase5_length (ebullets : List Bullet) (p : Player) :
    (phase5 ebullets p).1.length ≤ ebullets.length := by
  induction ebullets with
  | nil => simp [phase5]
  | cons b bs ih =>
      by_cases hc : checkCollision b.rect (phase5 bs p).2.1.rect = true
      · simp only [phase5, hc, if_pos, List.length_cons]
        omega
      · simp only [phase5, hc, if_neg, Bool.false_eq_true, not_false_eq_true,
          List.length_cons]
        omega

/-- Helper: an enemy bullet at the end of the list (processed first)
overlapping the player is spliced out during phase 5. -/
theorem phase5_append_hit (ebullets : List Bullet) (p : Player) (b : Bullet)
    (hc : checkCollision b.rect p.rect = true) :
    (phase5 (ebullets ++ [b]) p).1.length ≤ ebullets.length := by
  induction ebullets with
  | nil => simp [phase5, hc]
  | cons a as ih =>
      by_cases hca : checkCollision a.rect (phase5 (as ++ [b]) p).2.1.rect = true
      · simp only [List.cons_append, phase5, List.append_eq, hca, if_pos,
          List.length_cons]
        omega
      · simp only [List.cons_append, phase5, List.append_eq, hca, if_neg,
          Bool.false_eq_true, not_false_eq_true, List.length_cons]
        omega

/-- C8 counterexample: a player bullet overlapping an active wall is
already gone from the bullet collection at the end of collision phase 1 —
removal happens inside the phase (the source splices immediately), not
once after all six phases. -/
theorem checkCollisions_lazy_removal_counterexample :
    checkCollision demoBullet.rect demoWall.rect = true ∧
    demoWall.active = true ∧
    (bulletsVsWalls true [demoBullet] [demoWall]).1.length = 0 := by
  have hcol : checkCollision demoBullet.rect demoWall.rect = true := by
    norm_num [checkCollision, Bullet.rect, Wall.rect, demoBullet, demoWall]
  refine ⟨hcol, rfl, ?_⟩
  have hcond :
      (demoWall.active && checkCollision demoBullet.rect demoWall.rect) = true := by
    rw [hcol]
    rfl
  simp [bulletsVsWalls, hitFirstWall, hcond]

/-- C8 (amended): inside `checkCollisions`, removal is immediate, not
deferred to after the six phases. In phases 1 and 4 a bullet that hits a
wall is spliced out within the phase (one extra colliding bullet means
strictly fewer survivors than bullets), while walls are damaged in place
(count preserved) and pruned to their active members once, straight after
phase 1 and before phases 2–6. In phase 2 a colliding bullet–enemy pair
loses both members within the phase. In phase 3 every power-up
overlapping the player is gone from the collection at the end of the
phase (and only those). In phase 5 an overlapping enemy bullet is spliced
out within the phase regardless of the damage outcome. -/
theorem checkCollisions_eager_removal
    (isPlayer : Bool) (bullets ebullets : List Bullet) (walls : List Wall)
    (enemies : List Enemy) (powerUps : List PowerUp) (player : Player)
    (b : Bullet) (w : Wall) (e : Enemy)
    (hact : w.active = true)
    (hcolW : checkCollision b.rect w.rect = true)
    (hcolE : checkCollision b.rect e.rect = true)
    (hcolP : checkCollision b.rect player.rect = true) :
    ((bulletsVsWalls isPlayer bullets walls).1.length ≤ bullets.length ∧
     (bulletsVsWalls isPlayer bullets walls).2.length = walls.length ∧
     (bulletsVsWalls isPlayer (bullets ++ [b]) (w :: walls)).1.length <
       (bullets ++ [b]).length) ∧
    ((phase1AndPrune bullets walls).2 =
      (bulletsVsWalls true bullets walls).2.filter (fun x => x.active)) ∧
    ((phase2 bullets enemies).1.length ≤ bullets.length ∧
     (phase2 bullets enemies).2.length ≤ enemies.length ∧
     (phase2 (bullets ++ [b]) (enemies ++ [e])).1.length ≤ bullets.length ∧
     (phase2 (bullets ++ [b]) (enemies ++ [e])).2.length ≤ enemies.length) ∧
    (∀ pu ∈ powerUps,
      (pu ∈ phase3 player powerUps ↔ checkCollision pu.rect player.rect = false)) ∧
    ((phase5 ebullets player).1.length ≤ ebullets.length ∧
     (phase5 (ebullets ++ [b]) player).1.length ≤ ebullets.length) := by
  have hphase2app := phase2_append bullets [b] (enemies ++ [e])
  have h2single : phase2 [b] (enemies ++ [e]) = ([], enemies) := by
    simp [phase2, removeLastHitEnemy_append_hit b enemies e hcolE]
  refine ⟨⟨(bulletsVsWalls_length isPlayer bullets walls).1,
      (bulletsVsWalls_length isPlayer bullets walls).2, ?_⟩, rfl,
    ⟨(phase2_length bullets enemies).1, (phase2_length bullets enemies).2, ?_, ?_⟩,
    ?_, phase5_length ebullets player, phase5_append_hit ebullets player b hcolP⟩
  · have hfw : hitFirstWall isPlayer b (w :: walls) =
        ((Wall.takeDamage w (b.x + b.width / 2) (b.y + b.height / 2) isPlayer).1 :: walls,
         true) := by
      unfold hitFirstWall
      rw [if_pos (by rw [hact, hcolW]; rfl)]
    have hsingle : bulletsVsWalls isPlayer [b] (w :: walls) =
        ([],
         (Wall.takeDamage w (b.x + b.width / 2) (b.y + b.height / 2) isPlayer).1 ::
           walls) := by
      simp [bulletsVsWalls, hfw]
    rw [bulletsVsWalls_append isPlayer bullets [b] (w :: walls), hsingle]
    have hlen := (bulletsVsWalls_length isPlayer bullets
      ((Wall.takeDamage w (b.x + b.width / 2) (b.y + b.height / 2) isPlayer).1 ::
        walls)).1
    simp only [List.length_append, List.length_cons, List.length_nil]
    omega
  · rw [hphase2app, h2single]
    have := (phase2_length bullets enemies).1
    simp only [List.length_append, List.length_nil]
    omega
  · rw [hphase2app, h2single]
    exact (phase2_length bullets enemies).2
  · intro pu hmem
    simp [phase3, List.mem_filter, hmem]

/-- Closed witness for C8: with one colliding bullet and one colliding
entity of each kind, phase 1 ends with strictly fewer bullets, phase 2
ends with the enemy gone, phase 5 ends with the enemy bullet gone, and
phase 3 drops the overlapping power-up. -/
theorem checkCollisions_eager_removal_witness :
    (bulletsVsWalls true ([] ++ [demoBullet]) (demoWall :: [])).1.length <
      ([] ++ [demoBullet]).length ∧
    (phase2 ([] ++ [demoBullet]) ([] ++ [demoEnemy])).2.length ≤
      ([] : List Enemy).length ∧
    (phase5 ([] ++ [demoBullet]) demoHitPlayer).1.length ≤ ([] : List Bullet).length ∧
    (demoPowerUp ∈ phase3 demoHitPlayer [demoPowerUp] ↔
      checkCollision demoPowerUp.rect demoHitPlayer.rect = false) := by
  have h := checkCollisions_eager_removal true [] [] [] [] [demoPowerUp] demoHitPlayer
    demoBullet demoWall demoEnemy rfl
    (by norm_num [checkCollision, Bullet.rect, Wall.rect, demoBullet, demoWall])
    (by norm_num [checkCollision, Bullet.rect, Enemy.rect, demoBullet, demoEnemy, mkEnemy])
    (by norm_num [checkCollision, Bullet.rect, Player.rect, demoBullet, demoHitPlayer,
      mkPlayer])
  exact ⟨h.1.2.2, h.2.2.1.2.2.2, h.2.2.2.2.2, h.2.2.2.1 demoPowerUp (by simp)⟩

end SpaceInvaders
